import Mathlib

/-!
Shallow embedding of the transaction totals, ageing and lifecycle logic of
the small-business accounting application.

Decimal columns are stored as numeric strings in the application and are
read through the JavaScript Number coercion; we model a well-formed numeric
field as a rational number and a null or missing field as none.  Instants
(dates) are modelled as integer millisecond timestamps, matching
Date.getTime().
-/

namespace Acct

/-- Line item fields as consumed by the client GST computation
(TransactionDetailView.tsx).  Each field holds the coerced numeric value of
the stored string, or none when the stored field is null or missing. -/
structure TxItem where
  amount : Option ℚ
  taxRate : Option ℚ
  taxAmount : Option ℚ
deriving DecidableEq, Repr

/-- Coercion used at line 117 and 114 of TransactionDetailView.tsx:
Number(item.taxRate || 0) — a null or missing rate is coerced to 0. -/
def itemRate (it : TxItem) : ℚ := it.taxRate.getD 0

/-- Coercion used at line 118: Number(item.amount) || 0. -/
def itemAmount (it : TxItem) : ℚ := it.amount.getD 0

/-- Coercion used at line 119: Number(item.taxAmount) || 0. -/
def itemTax (it : TxItem) : ℚ := it.taxAmount.getD 0

/-- One row of the GST breakup produced by calculateGstBreakup. -/
structure GstGroup where
  rate : ℚ
  taxableAmount : ℚ
  igst : ℚ
  cgst : ℚ
  sgst : ℚ
  total : ℚ
deriving DecidableEq, Repr

/-- First-occurrence deduplication, the semantics of
[...new Set(list)] in JavaScript (line 114).  The first argument
accumulates the values already emitted. -/
def jsSetAux : List ℚ → List ℚ → List ℚ
  | _, [] => []
  | seen, a :: l =>
    if a ∈ seen then jsSetAux seen l else a :: jsSetAux (a :: seen) l

/-- Deduplicated list of values in first-occurrence order, as produced by
[...new Set(list)]. -/
def jsSet (l : List ℚ) : List ℚ := jsSetAux [] l

/-- The sentinel string compared against the Party state at line 120. -/
def sameStateSentinel : String := "Same State as User"

/-- calculateGstBreakup (TransactionDetailView.tsx lines 111-131).
partyState is party?.state: none when no party was found or its state is
missing.  Each distinct coerced taxRate produces one group; the whole group
tax goes to IGST when the party state is not the sentinel string, otherwise
it is split in half between CGST and SGST. -/
def calculateGstBreakup (items : List TxItem) (partyState : Option String) : List GstGroup :=
  let gstRates := jsSet (items.map itemRate)
  gstRates.map (fun rate =>
    let itemsWithRate := items.filter (fun it => itemRate it = rate)
    let taxableAmount := (itemsWithRate.map itemAmount).sum
    let taxAmount := (itemsWithRate.map itemTax).sum
    let isIGST : Bool := partyState ≠ some sameStateSentinel
    { rate := rate
      taxableAmount := taxableAmount
      igst := if isIGST then taxAmount else 0
      cgst := if ¬ isIGST then taxAmount / 2 else 0
      sgst := if ¬ isIGST then taxAmount / 2 else 0
      total := taxAmount })

/-- Transaction header as stored by MemStorage (storage module).  Decimal
columns (amount, balanceDue) hold numeric strings or null; a well-formed
numeric string is modelled by its rational value, null by none.  dueDate is
the millisecond timestamp of the stored date, none when null. -/
structure Transaction where
  id : Nat
  userId : Nat
  transactionType : String
  status : String
  amount : Option ℚ
  balanceDue : Option ℚ
  dueDate : Option Int
deriving DecidableEq, Repr

/-- Coercion Number(transaction.balanceDue || 0) used throughout the
storage module: a null balance contributes 0. -/
def balNum (t : Transaction) : ℚ := t.balanceDue.getD 0

/-- Eligibility filter shared by the ageing queries (storage lines
376-381 and 417-422): matching userId, the requested transactionType and a
status among pending, overdue, partially_paid. -/
def isEligible (userId : Nat) (ttype : String) (t : Transaction) : Bool :=
  t.userId == userId && t.transactionType == ttype &&
    (t.status == "pending" || t.status == "overdue" || t.status == "partially_paid")

/-- Milliseconds in one day, the divisor 1000*60*60*24 at storage line 394. -/
def msPerDay : Int := 1000 * 60 * 60 * 24

/-- Math.floor((now.getTime() - dueDate.getTime()) / (1000*60*60*24)) —
floor division of the millisecond difference, storage line 394. -/
def diffDays (now due : Int) : Int := Int.fdiv (now - due) msPerDay

/-- The four ageing buckets returned by getReceivablesAgeing and
getPayablesAgeing. -/
structure Ageing where
  current : ℚ
  days1to30 : ℚ
  days31to60 : ℚ
  days60plus : ℚ
deriving DecidableEq, Repr

/-- The all-zero bucket record the fold starts from (storage lines 383-388). -/
def zeroAgeing : Ageing := ⟨0, 0, 0, 0⟩

/-- Componentwise sum of bucket records. -/
def addAgeing (a b : Ageing) : Ageing :=
  ⟨a.current + b.current, a.days1to30 + b.days1to30,
   a.days31to60 + b.days31to60, a.days60plus + b.days60plus⟩

/-- Body of the forEach at storage lines 390-405: a transaction with a null
dueDate is skipped; otherwise its balanceDue is added to the bucket chosen
by diffDays. -/
def ageingStep (now : Int) (acc : Ageing) (t : Transaction) : Ageing :=
  match t.dueDate with
  | none => acc
  | some due =>
    let d := diffDays now due
    let b := balNum t
    if d ≤ 0 then { acc with current := acc.current + b }
    else if d ≤ 30 then { acc with days1to30 := acc.days1to30 + b }
    else if d ≤ 60 then { acc with days31to60 := acc.days31to60 + b }
    else { acc with days60plus := acc.days60plus + b }

/-- Common shape of getReceivablesAgeing / getPayablesAgeing over a
snapshot of the transactions map: filter to the eligible open transactions
and fold the bucket assignment. -/
def ageingOf (now : Int) (txs : List Transaction) (userId : Nat) (ttype : String) : Ageing :=
  (txs.filter (isEligible userId ttype)).foldl (ageingStep now) zeroAgeing

/-- MemStorage.getReceivablesAgeing (storage lines 369-408). -/
def getReceivablesAgeing (now : Int) (txs : List Transaction) (userId : Nat) : Ageing :=
  ageingOf now txs userId "sales_invoice"

/-- MemStorage.getPayablesAgeing (storage lines 410-449). -/
def getPayablesAgeing (now : Int) (txs : List Transaction) (userId : Nat) : Ageing :=
  ageingOf now txs userId "purchase_bill"

/-- Numeric value of a decimal digit character. -/
def digitVal (c : Char) : Nat := c.toNat - ('0').toNat

/-- Value of a digit string read left to right. -/
def digitsToNat (cs : List Char) : Nat :=
  cs.foldl (fun n c => 10 * n + digitVal c) 0

/-- Leading and trailing whitespace removal on character lists, the
whitespace stripping JavaScript Number performs on strings (restricted to
the space character, the only whitespace occurring in the modelled data). -/
def trimChars (cs : List Char) : List Char :=
  ((cs.dropWhile (fun c => c = ' ')).reverse.dropWhile (fun c => c = ' ')).reverse

/-- JavaScript Number coercion of a string, on the decimal fragment of its
grammar: an empty (or all-space) string is 0; otherwise an optional sign,
an integer part and an optional fractional part; anything else is NaN,
modelled as none. -/
def jsNumberChars (cs : List Char) : Option ℚ :=
  let t := trimChars cs
  if t.isEmpty then some 0
  else
    let sgn : ℚ := match t.head? with | some '-' => -1 | _ => 1
    let body := match t with
      | '-' :: r => r
      | '+' :: r => r
      | r => r
    let ipart := body.takeWhile Char.isDigit
    let rest := body.dropWhile Char.isDigit
    match rest with
    | [] => if ipart.isEmpty then none else some (sgn * digitsToNat ipart)
    | '.' :: fpart =>
      if fpart.all Char.isDigit && !(ipart.isEmpty && fpart.isEmpty) then
        some (sgn * ((digitsToNat ipart : ℚ) +
          (digitsToNat fpart : ℚ) / (10 ^ fpart.length)))
      else none
    | _ => none

/-- Number(s) for a string s. -/
def jsNumber (s : String) : Option ℚ := jsNumberChars s.data

/-- JavaScript truthiness of the balanceDue prop (string | null |
undefined): null, undefined and the empty string are falsy, every other
string is truthy. -/
def strTruthy : Option String → Bool
  | none => false
  | some s => !s.isEmpty

/-- Number(balanceDue) for the optional string prop.  The resolver only
evaluates this under the truthiness guard, where the string is non-empty;
we model the unreachable none case as NaN. -/
def balToNumber : Option String → Option ℚ
  | none => none
  | some s => jsNumber s

/-- Test Number(balanceDue) > 0: false when the coercion yields NaN. -/
def balPositive (b : Option String) : Bool :=
  match balToNumber b with
  | some q => decide (0 < q)
  | none => false

/-- Status-display resolver of the StatusBadge component
(TransactionDetailView.tsx lines 50-73).  dueDate is modelled as the
instant new Date(dueDate) denotes, none when the prop is null, undefined or
empty; now is the instant new Date() evaluates to.  The comparison
today > due at line 62 is a comparison of instants. -/
def displayStatus (status : String) (dueDate : Option Int) (balanceDue : Option String)
    (now : Int) : String :=
  if strTruthy balanceDue = true ∧ balToNumber balanceDue = some 0 then "paid"
  else if strTruthy balanceDue = true ∧ balPositive balanceDue = true ∧ dueDate.isSome = true then
    match dueDate with
    | some due => if due < now then "overdue" else status
    | none => status
  else status

/-- Rendering the StatusBadge against a snapshot of stored transactions:
the component receives its props, computes the display status and performs
no write — the snapshot is returned unchanged. -/
def statusBadgeObserve (store : List Transaction) (status : String) (dueDate : Option Int)
    (balanceDue : Option String) (now : Int) : String × List Transaction :=
  (displayStatus status dueDate balanceDue now, store)

/-- Header payload accepted by POST /transactions before the store assigns
an id (InsertTransaction). -/
structure InsertTx where
  userId : Nat
  transactionType : String
  status : String
  amount : Option ℚ
  balanceDue : Option ℚ
  dueDate : Option Int
deriving DecidableEq, Repr

/-- Line-item payload of the request, before the controller stamps the
owning transaction id (InsertTransactionItem without transactionId). -/
structure InsertItem where
  amount : Option ℚ
  taxRate : Option ℚ
  taxAmount : Option ℚ
deriving DecidableEq, Repr

/-- Stored transaction line item (TransactionItem). -/
structure StoredItem where
  id : Nat
  transactionId : Nat
  amount : Option ℚ
  taxRate : Option ℚ
  taxAmount : Option ℚ
deriving DecidableEq, Repr

/-- Partial update accepted by updateTransaction: an outer none means the
field is absent from the patch, an outer some overwrites the stored
field. -/
structure TxUpdate where
  amount : Option (Option ℚ)
  balanceDue : Option (Option ℚ)
deriving DecidableEq, Repr

/-- Merging an update into a stored header, the object spread
{ ...transaction, ...updates } at storage line 289.  The id is not part of
the patch and is preserved. -/
def applyUpdate (t : Transaction) (u : TxUpdate) : Transaction :=
  { t with amount := u.amount.getD t.amount, balanceDue := u.balanceDue.getD t.balanceDue }

/-- In-memory store state: the transactions and transactionItems maps of
MemStorage as association lists in insertion order, with the two id
counters. -/
structure Store where
  transactions : List Transaction
  txItems : List StoredItem
  txCounter : Nat
  itemCounter : Nat
deriving DecidableEq, Repr

/-- Map lookup this.transactions.get(id). -/
def Store.getTransaction (s : Store) (id : Nat) : Option Transaction :=
  s.transactions.find? (fun t => t.id == id)

/-- MemStorage.createTransaction (storage lines 275-281): assign the
counter as id, store the header, bump the counter. -/
def Store.createTx (s : Store) (ins : InsertTx) : Transaction × Store :=
  let t : Transaction :=
    { id := s.txCounter, userId := ins.userId, transactionType := ins.transactionType
      status := ins.status, amount := ins.amount, balanceDue := ins.balanceDue
      dueDate := ins.dueDate }
  (t, { s with transactions := s.transactions ++ [t], txCounter := s.txCounter + 1 })

/-- Errors thrown by the store. -/
inductive StoreErr where
  | notFound (id : Nat)
deriving DecidableEq, Repr

/-- MemStorage.updateTransaction (storage lines 283-292): throw a
not-found error when the id is absent, otherwise merge the patch and
replace the map entry. -/
def Store.updateTx (s : Store) (id : Nat) (u : TxUpdate) :
    Except StoreErr (Transaction × Store) :=
  match s.getTransaction id with
  | none => .error (.notFound id)
  | some t =>
    let t2 := applyUpdate t u
    .ok (t2, { s with
      transactions := s.transactions.map (fun x => if x.id == id then t2 else x) })

/-- MemStorage.createTransactionItem (storage lines 301-307). -/
def Store.createItem (s : Store) (txId : Nat) (ins : InsertItem) : StoredItem × Store :=
  let it : StoredItem :=
    { id := s.itemCounter, transactionId := txId, amount := ins.amount
      taxRate := ins.taxRate, taxAmount := ins.taxAmount }
  (it, { s with txItems := s.txItems ++ [it], itemCounter := s.itemCounter + 1 })

/-- MemStorage.getTransactionItemsByTransactionId (storage lines 295-299). -/
def Store.itemsByTx (s : Store) (txId : Nat) : List StoredItem :=
  s.txItems.filter (fun it => it.transactionId == txId)

/-- Well-formedness of a store snapshot, maintained by MemStorage because
ids are handed out by the counters: every stored transaction id and every
item foreign key is below the transaction counter. -/
def Store.wf (s : Store) : Bool :=
  s.transactions.all (fun t => t.id < s.txCounter) &&
    s.txItems.all (fun it => it.transactionId < s.txCounter)

/-- Request fragment as it looks before schema validation: the payload
either conforms to its zod schema and denotes a typed value, or fails to
parse. -/
inductive Raw (α : Type) where
  | ok (a : α)
  | bad
deriving DecidableEq, Repr

/-- Modelled from the spec: insertTransactionSchema.parse and
insertTransactionItemSchema.parse come from @shared/schema, which is not
among the sources; per the spec, a payload is checked against its schema
and a violation throws a ValidationError.  A conforming payload yields its
typed value. -/
def zodParse : Raw α → Option α
  | .ok a => some a
  | .bad => none

/-- Totals record returned by the service. -/
structure Totals where
  subtotal : ℚ
  totalTax : ℚ
  grandTotal : ℚ
deriving DecidableEq, Repr

/-- Modelled from the spec: TransactionService.calculateTotals (the
services module is not among the sources).  Per the spec, subtotal is the
sum of the items pre-tax amounts, totalTax the sum of their taxAmounts,
grandTotal their sum, with absent numeric fields coerced to 0. -/
def calculateTotals (items : List StoredItem) : Totals :=
  let subtotal := (items.map (fun i => i.amount.getD 0)).sum
  let totalTax := (items.map (fun i => i.taxAmount.getD 0)).sum
  ⟨subtotal, totalTax, subtotal + totalTax⟩

/-- Response body of a successful creation (controller lines 45-49): the
spread of the header object returned by storage.createTransaction — the
object held before the finalization patch — together with the created
items and the computed totals. -/
structure CreatedBody where
  headerEcho : Transaction
  items : List StoredItem
  totals : Totals
deriving DecidableEq, Repr

/-- Outcome of POST /transactions. -/
inductive CreateResult where
  | created (body : CreatedBody)
  | badRequest (msg : String)
deriving DecidableEq, Repr

/-- HTTP status code of a creation outcome. -/
def CreateResult.statusCode : CreateResult → Nat
  | .created _ => 201
  | .badRequest _ => 400

/-- The item loop of TransactionController.createTransaction (lines
27-37): each raw item is validated against its schema and persisted,
stamped with the new transaction id; the first validation failure throws,
leaving the store as written so far.  In the source the id is spread into
the payload before parsing; stamping a valid id cannot affect the parse,
so we stamp after parsing. -/
def insertItems (txId : Nat) : Store → List StoredItem → List (Raw InsertItem) →
    Option (List StoredItem) × Store
  | s, acc, [] => (some acc, s)
  | s, acc, r :: rs =>
    match zodParse r with
    | none => (none, s)
    | some ins =>
      let p := s.createItem txId ins
      insertItems txId p.2 (acc ++ [p.1]) rs

/-- TransactionController.createTransaction (controller lines 14-57).
body is none when the request body lacks the transaction or the items
field.  Any exception — schema violation or store error — is caught and
answered with status 400; the store keeps whatever was written before the
throw. -/
def createTransactionCtrl (s : Store) (body : Option (Raw InsertTx × List (Raw InsertItem))) :
    CreateResult × Store :=
  match body with
  | none => (.badRequest "Transaction and items are required", s)
  | some (rawTx, rawItems) =>
    match zodParse rawTx with
    | none => (.badRequest "Failed to create transaction", s)
    | some ins =>
      let p := s.createTx ins
      match insertItems p.1.id p.2 [] rawItems with
      | (none, s2) => (.badRequest "Failed to create transaction", s2)
      | (some createdItems, s2) =>
        let totals := calculateTotals createdItems
        match s2.updateTx p.1.id ⟨some (some totals.grandTotal), some (some totals.grandTotal)⟩ with
        | .error _ => (.badRequest "Failed to create transaction", s2)
        | .ok q => (.created ⟨p.1, createdItems, totals⟩, q.2)

/-- Outcome of PUT /transactions/:id. -/
inductive UpdateResult where
  | okTx (t : Transaction)
  | badRequest (msg : String)
deriving DecidableEq, Repr

/-- HTTP status code of an update outcome. -/
def UpdateResult.statusCode : UpdateResult → Nat
  | .okTx _ => 200
  | .badRequest _ => 400

/-- TransactionController.updateTransaction (controller lines 104-121).
The store throws on a missing id, so the catch block answers 400; the
in-line check for a missing result never fires because
MemStorage.updateTransaction never returns undefined. -/
def updateTransactionCtrl (s : Store) (id : Nat) (body : Raw TxUpdate) :
    UpdateResult × Store :=
  match zodParse body with
  | none => (.badRequest "Failed to update transaction", s)
  | some u =>
    match s.updateTx id u with
    | .error _ => (.badRequest "Failed to update transaction", s)
    | .ok q => (.okTx q.1, q.2)

lemma jsSetAux_eq_nil_of_mem (l : List ℚ) : ∀ seen : List ℚ, (∀ x ∈ l, x ∈ seen) →
    jsSetAux seen l = [] := by
  induction l with
  | nil => intro seen _; rfl
  | cons a l ih =>
    intro seen h
    have ha : a ∈ seen := h a (List.mem_cons_self a l)
    simp only [jsSetAux, if_pos ha]
    exact ih seen (fun x hx => h x (List.mem_cons_of_mem a hx))

lemma jsSet_const (l : List ℚ) (R : ℚ) (h1 : l ≠ []) (h2 : ∀ x ∈ l, x = R) :
    jsSet l = [R] := by
  cases l with
  | nil => exact absurd rfl h1
  | cons a l =>
    have ha : a = R := h2 a (List.mem_cons_self a l)
    subst ha
    simp only [jsSet, jsSetAux, List.not_mem_nil, if_false]
    rw [jsSetAux_eq_nil_of_mem l [a]]
    intro x hx
    rw [h2 x (List.mem_cons_of_mem a hx)]
    have := h2 a (List.mem_cons_self a l)
    simp [this]

/-- C2: every breakup group assigns its whole tax to IGST when the Party
state is not the sentinel (or no Party was found), and splits it in half
between CGST and SGST when the state is the sentinel; the single item
(amount 45000, taxRate 5, taxAmount 2250) with Party state Maharashtra
yields exactly the group (rate 5, taxableAmount 45000, igst 2250, cgst 0,
sgst 0, total 2250). -/
theorem gstBreakup_jurisdiction :
    (∀ (items : List TxItem) (st : Option String) (g : GstGroup),
      g ∈ calculateGstBreakup items st →
      ((st ≠ some sameStateSentinel → g.igst = g.total ∧ g.cgst = 0 ∧ g.sgst = 0) ∧
       (st = some sameStateSentinel →
          g.igst = 0 ∧ g.cgst = g.total / 2 ∧ g.sgst = g.total / 2))) ∧
    calculateGstBreakup [⟨some 45000, some 5, some 2250⟩] (some "Maharashtra")
      = [⟨5, 45000, 2250, 0, 0, 2250⟩] := by
  constructor
  · intro items st g hg
    simp only [calculateGstBreakup, List.mem_map] at hg
    obtain ⟨rate, _, rfl⟩ := hg
    constructor
    · intro hne
      simp [hne]
    · intro heq
      simp [heq]
  · simp [calculateGstBreakup, jsSet, jsSetAux, itemRate, itemAmount, itemTax,
      sameStateSentinel]

/-- C2 witness: the general statement applied to the single Maharashtra
item, whose group carries the whole tax as IGST. -/
theorem gstBreakup_jurisdiction_witness :
    (⟨5, 45000, 2250, 0, 0, 2250⟩ : GstGroup).igst
      = (⟨5, 45000, 2250, 0, 0, 2250⟩ : GstGroup).total ∧
    (⟨5, 45000, 2250, 0, 0, 2250⟩ : GstGroup).cgst = 0 ∧
    (⟨5, 45000, 2250, 0, 0, 2250⟩ : GstGroup).sgst = 0 :=
  (gstBreakup_jurisdiction.1 [⟨some 45000, some 5, some 2250⟩] (some "Maharashtra")
    ⟨5, 45000, 2250, 0, 0, 2250⟩
    (by rw [gstBreakup_jurisdiction.2]; exact List.mem_singleton.mpr rfl)).1
    (by simp [sameStateSentinel])

/-- C5: for a non-empty item list whose coerced tax rates all equal R, the
breakup is a single group whose taxableAmount is the sum of the item
amounts, whose total is the sum of the item tax amounts, with
igst + cgst + sgst reconstructing the total exactly and cgst = sgst in
both jurisdiction branches. -/
theorem gstBreakup_single_rate (items : List TxItem) (R : ℚ) (st : Option String)
    (h1 : items ≠ []) (h2 : ∀ it ∈ items, itemRate it = R) :
    ∃ g, calculateGstBreakup items st = [g] ∧
      g.taxableAmount = (items.map itemAmount).sum ∧
      g.total = (items.map itemTax).sum ∧
      g.igst + g.cgst + g.sgst = g.total ∧
      g.cgst = g.sgst := by
  have hrates : jsSet (items.map itemRate) = [R] := by
    apply jsSet_const
    · simp [h1]
    · intro x hx
      obtain ⟨it, hit, rfl⟩ := List.mem_map.mp hx
      exact h2 it hit
  have hfilter : items.filter (fun it => itemRate it = R) = items := by
    rw [List.filter_eq_self]
    intro it hit
    simp [h2 it hit]
  by_cases hst : st = some sameStateSentinel
  · refine ⟨⟨R, (items.map itemAmount).sum, 0, (items.map itemTax).sum / 2,
      (items.map itemTax).sum / 2, (items.map itemTax).sum⟩, ?_, rfl, rfl, by ring, rfl⟩
    simp [calculateGstBreakup, hrates, hfilter, hst]
  · refine ⟨⟨R, (items.map itemAmount).sum, (items.map itemTax).sum, 0, 0,
      (items.map itemTax).sum⟩, ?_, rfl, rfl, by ring, rfl⟩
    simp [calculateGstBreakup, hrates, hfilter, hst]

/-- C5 witness: two items of rate 5 in the intra-state branch form a
single group reconstructing its total from the even CGST/SGST halves. -/
theorem gstBreakup_single_rate_witness :
    ∃ g, calculateGstBreakup [⟨some 45000, some 5, some 2250⟩, ⟨some 100, some 5, some 5⟩]
        (some "Same State as User") = [g] ∧
      g.taxableAmount = ([⟨some 45000, some 5, some 2250⟩,
        (⟨some 100, some 5, some 5⟩ : TxItem)].map itemAmount).sum ∧
      g.total = ([⟨some 45000, some 5, some 2250⟩,
        (⟨some 100, some 5, some 5⟩ : TxItem)].map itemTax).sum ∧
      g.igst + g.cgst + g.sgst = g.total ∧
      g.cgst = g.sgst :=
  gstBreakup_single_rate [⟨some 45000, some 5, some 2250⟩, ⟨some 100, some 5, some 5⟩] 5
    (some "Same State as User") (by simp) (by simp [itemRate])

/-- C7 counterexample: the empty string is a present balanceDue whose
JavaScript numeric value is 0, yet the resolver displays the stored status
because the empty string is falsy, not "paid". -/
theorem statusResolver_counterexample :
    jsNumber "" = some 0 ∧
    displayStatus "pending" none (some "") 0 = "pending" ∧
    displayStatus "pending" none (some "") 0 ≠ "paid" := by
  have hie : ("" : String).isEmpty = true := rfl
  refine ⟨rfl, ?_, ?_⟩
  · simp [displayStatus, strTruthy, hie]
  · simp [displayStatus, strTruthy, hie]

/-- C7 amended: the resolver displays "paid" exactly when balanceDue is a
truthy (non-empty) string of numeric value 0 — the number 0 or the empty
string instead leaves the stored status; it displays "overdue" when
balanceDue is a truthy string of positive numeric value and the dueDate
instant is strictly before the current instant; in every other case it
displays the stored status unchanged. -/
theorem statusResolver_amended (status : String) (dueDate : Option Int) (s : String)
    (now : Int) :
    (s ≠ "" → jsNumber s = some 0 → displayStatus status dueDate (some s) now = "paid") ∧
    (∀ q : ℚ, ∀ due : Int, s ≠ "" → jsNumber s = some q → 0 < q → dueDate = some due →
      due < now → displayStatus status dueDate (some s) now = "overdue") ∧
    (∀ q : ℚ, ∀ due : Int, s ≠ "" → jsNumber s = some q → 0 < q → dueDate = some due →
      now ≤ due → displayStatus status dueDate (some s) now = status) ∧
    (∀ q : ℚ, s ≠ "" → jsNumber s = some q → 0 < q → dueDate = none →
      displayStatus status dueDate (some s) now = status) ∧
    (displayStatus status dueDate none now = status) ∧
    (displayStatus status dueDate (some "") now = status) := by
  have hemp : ∀ t : String, t ≠ "" → t.isEmpty = false := by
    intro t ht
    rw [← Bool.not_eq_true]
    intro h
    exact ht ((String.isEmpty_iff t).mp h)
  refine ⟨?_, ?_, ?_, ?_, ?_, ?_⟩
  · intro hne h0
    simp [displayStatus, strTruthy, balToNumber, hemp s hne, h0]
  · intro q due hne hq hpos hdd hlt
    subst hdd
    have hne0 : q ≠ 0 := ne_of_gt hpos
    simp [displayStatus, strTruthy, balToNumber, balPositive, hemp s hne, hq, hne0, hpos, hlt]
  · intro q due hne hq hpos hdd hge
    subst hdd
    have hne0 : q ≠ 0 := ne_of_gt hpos
    simp [displayStatus, strTruthy, balToNumber, balPositive, hemp s hne, hq, hne0, hpos,
      not_lt.mpr hge]
  · intro q hne hq hpos hdd
    subst hdd
    have hne0 : q ≠ 0 := ne_of_gt hpos
    simp [displayStatus, strTruthy, balToNumber, balPositive, hemp s hne, hq, hne0]
  · simp [displayStatus, strTruthy]
  · have hie : ("" : String).isEmpty = true := rfl
    simp [displayStatus, strTruthy, hie]

/-- C7 witness: the stored status pending with the string balance "0" is
displayed as paid. -/
theorem statusResolver_amended_witness :
    displayStatus "pending" none (some "0") 0 = "paid" :=
  (statusResolver_amended "pending" none "0" 0).1 (by simp)
    (by
      have h : jsNumber "0" = some (1 * ((0 : ℕ) : ℚ)) := rfl
      rw [h]; norm_num)

/-- C9: the status badge is a pure read-time projection — rendering it
against any snapshot of stored transactions returns that snapshot
unchanged, and the displayed status is independent of the snapshot,
depending only on the props and the evaluation instant. -/
theorem statusBadge_pure (store other : List Transaction) (status : String)
    (dueDate : Option Int) (balanceDue : Option String) (now : Int) :
    (statusBadgeObserve store status dueDate balanceDue now).2 = store ∧
    (statusBadgeObserve store status dueDate balanceDue now).1
      = (statusBadgeObserve other status dueDate balanceDue now).1 ∧
    (statusBadgeObserve store status dueDate balanceDue now).1
      = displayStatus status dueDate balanceDue now :=
  ⟨rfl, rfl, rfl⟩

lemma addAgeing_zero_left (a : Ageing) : addAgeing zeroAgeing a = a := by
  cases a
  simp [addAgeing, zeroAgeing]

lemma addAgeing_zero_right (a : Ageing) : addAgeing a zeroAgeing = a := by
  cases a
  simp [addAgeing, zeroAgeing]

lemma addAgeing_assoc (a b c : Ageing) :
    addAgeing (addAgeing a b) c = addAgeing a (addAgeing b c) := by
  cases a; cases b; cases c
  simp [addAgeing]
  refine ⟨by ring, by ring, by ring, by ring⟩

lemma ageingStep_shift (now : Int) (a : Ageing) (t : Transaction) :
    ageingStep now a t = addAgeing a (ageingStep now zeroAgeing t) := by
  rcases h : t.dueDate with _ | due
  · simp [ageingStep, h, addAgeing_zero_right]
  · simp only [ageingStep, h]
    split_ifs <;> (cases a; simp [addAgeing, zeroAgeing])

lemma foldl_ageingStep_shift (now : Int) (l : List Transaction) :
    ∀ a : Ageing, l.foldl (ageingStep now) a
      = addAgeing a (l.foldl (ageingStep now) zeroAgeing) := by
  induction l with
  | nil => intro a; simp [addAgeing_zero_right]
  | cons t l ih =>
    intro a
    rw [List.foldl_cons, List.foldl_cons, ih (ageingStep now a t),
      ih (ageingStep now zeroAgeing t), ageingStep_shift now a t, addAgeing_assoc]

lemma ageingOf_singleton (now : Int) (uid : Nat) (ty : String) (t : Transaction)
    (helig : isEligible uid ty t = true) :
    ageingOf now [t] uid ty = ageingStep now zeroAgeing t := by
  simp [ageingOf, List.filter_cons, helig]

/-- C3: the ageing analyzer computes diffDays as the floor of the whole-day
difference now minus dueDate — nonpositive for a future due date — and
each eligible transaction contributes its balanceDue to exactly one bucket
(current when diffDays is at most 0, days1to30 for 1-30, days31to60 for
31-60, days60plus beyond 60), transactions contribute independently, and a
transaction with a null dueDate contributes to no bucket. -/
theorem ageing_bucket_rule :
    (∀ (now : Int) (uid : Nat) (ty : String) (t : Transaction),
      isEligible uid ty t = true → t.dueDate = none →
      ageingOf now [t] uid ty = zeroAgeing) ∧
    (∀ (now : Int) (uid : Nat) (ty : String) (ts : List Transaction) (t : Transaction),
      ageingOf now (ts ++ [t]) uid ty
        = addAgeing (ageingOf now ts uid ty) (ageingOf now [t] uid ty)) ∧
    (∀ now due : Int, now < due → diffDays now due ≤ 0) ∧
    (∀ (now : Int) (uid : Nat) (ty : String) (t : Transaction) (due : Int),
      isEligible uid ty t = true → t.dueDate = some due →
      ((diffDays now due ≤ 0 → ageingOf now [t] uid ty = ⟨balNum t, 0, 0, 0⟩) ∧
       (1 ≤ diffDays now due → diffDays now due ≤ 30 →
          ageingOf now [t] uid ty = ⟨0, balNum t, 0, 0⟩) ∧
       (31 ≤ diffDays now due → diffDays now due ≤ 60 →
          ageingOf now [t] uid ty = ⟨0, 0, balNum t, 0⟩) ∧
       (60 < diffDays now due → ageingOf now [t] uid ty = ⟨0, 0, 0, balNum t⟩))) := by
  refine ⟨?_, ?_, ?_, ?_⟩
  · intro now uid ty t helig hdue
    rw [ageingOf_singleton now uid ty t helig]
    simp [ageingStep, hdue]
  · intro now uid ty ts t
    rw [ageingOf, List.filter_append, List.foldl_append,
      foldl_ageingStep_shift]
    rfl
  · intro now due h
    have hd : now - due < 0 := by omega
    rw [diffDays, msPerDay, Int.fdiv_eq_ediv _ (by norm_num)]
    calc (now - due) / (1000 * 60 * 60 * 24)
        ≤ 0 / (1000 * 60 * 60 * 24) := Int.ediv_le_ediv (by norm_num) hd.le
      _ = 0 := Int.zero_ediv _
  · intro now uid ty t due helig hdue
    rw [ageingOf_singleton now uid ty t helig]
    refine ⟨?_, ?_, ?_, ?_⟩
    · intro h1
      simp only [ageingStep, hdue]
      rw [if_pos h1]
      simp [zeroAgeing]
    · intro h1 h2
      simp only [ageingStep, hdue]
      rw [if_neg (by omega), if_pos (by omega)]
      simp [zeroAgeing]
    · intro h1 h2
      simp only [ageingStep, hdue]
      rw [if_neg (by omega), if_neg (by omega), if_pos (by omega)]
      simp [zeroAgeing]
    · intro h1
      simp only [ageingStep, hdue]
      rw [if_neg (by omega), if_neg (by omega), if_neg (by omega)]
      simp [zeroAgeing]

/-- C3 witness: the spec example — an eligible pending sales invoice due
45 whole days in the past with balance 18750 lands entirely in the
31-to-60-day bucket. -/
theorem ageing_bucket_rule_witness :
    ageingOf (45 * msPerDay) [⟨1, 1, "sales_invoice", "pending", some 18750, some 18750, some 0⟩]
      1 "sales_invoice" = ⟨0, 0, 18750, 0⟩ :=
  ((ageing_bucket_rule.2.2.2 (45 * msPerDay) 1 "sales_invoice"
      ⟨1, 1, "sales_invoice", "pending", some 18750, some 18750, some 0⟩ 0
      (by decide) rfl).2.2.1 (by decide)) (by decide)

/-- Sum of the four buckets of an ageing record. -/
def bucketSum (a : Ageing) : ℚ :=
  a.current + a.days1to30 + a.days31to60 + a.days60plus

lemma bucketSum_step (now : Int) (a : Ageing) (t : Transaction) :
    bucketSum (ageingStep now a t)
      = bucketSum a + (if t.dueDate.isSome then balNum t else 0) := by
  rcases h : t.dueDate with _ | due
  · simp [ageingStep, h]
  · simp only [ageingStep, h, Option.isSome_some, if_true]
    split_ifs <;> (cases a; simp [bucketSum]; ring)

lemma bucketSum_foldl (now : Int) (l : List Transaction) :
    ∀ a : Ageing, bucketSum (l.foldl (ageingStep now) a)
      = bucketSum a + (l.map (fun t => if t.dueDate.isSome then balNum t else 0)).sum := by
  induction l with
  | nil => intro a; simp
  | cons t l ih =>
    intro a
    rw [List.foldl_cons, ih (ageingStep now a t), bucketSum_step, List.map_cons, List.sum_cons]
    ring

lemma sum_if_due (l : List Transaction) :
    (l.map (fun t => if t.dueDate.isSome then balNum t else 0)).sum
      = ((l.filter (fun t => t.dueDate.isSome)).map balNum).sum := by
  induction l with
  | nil => rfl
  | cons t l ih =>
    by_cases h : t.dueDate.isSome <;>
      simp [List.filter_cons, h, ih]

/-- C6: for every snapshot and evaluation instant, the four receivables
(resp. payables) ageing buckets sum exactly to the total balanceDue of the
eligible transactions having a non-null dueDate — each such transaction is
counted exactly once. -/
theorem ageing_partition (now : Int) (uid : Nat) (txs : List Transaction) :
    ((getReceivablesAgeing now txs uid).current
      + (getReceivablesAgeing now txs uid).days1to30
      + (getReceivablesAgeing now txs uid).days31to60
      + (getReceivablesAgeing now txs uid).days60plus
      = (((txs.filter (isEligible uid "sales_invoice")).filter
          (fun t => t.dueDate.isSome)).map balNum).sum) ∧
    ((getPayablesAgeing now txs uid).current
      + (getPayablesAgeing now txs uid).days1to30
      + (getPayablesAgeing now txs uid).days31to60
      + (getPayablesAgeing now txs uid).days60plus
      = (((txs.filter (isEligible uid "purchase_bill")).filter
          (fun t => t.dueDate.isSome)).map balNum).sum) := by
  constructor
  · show bucketSum (getReceivablesAgeing now txs uid) = _
    rw [getReceivablesAgeing, ageingOf, bucketSum_foldl, sum_if_due]
    simp [bucketSum, zeroAgeing]
  · show bucketSum (getPayablesAgeing now txs uid) = _
    rw [getPayablesAgeing, ageingOf, bucketSum_foldl, sum_if_due]
    simp [bucketSum, zeroAgeing]

lemma insertItems_ok (txId : Nat) :
    ∀ (rs : List (Raw InsertItem)) (s : Store) (acc out : List StoredItem) (s2 : Store),
      insertItems txId s acc rs = (some out, s2) →
      s2.transactions = s.transactions ∧ s2.txCounter = s.txCounter ∧
      ∃ new, out = acc ++ new ∧ s2.txItems = s.txItems ++ new ∧
        ∀ it ∈ new, it.transactionId = txId := by
  intro rs
  induction rs with
  | nil =>
    intro s acc out s2 h
    simp only [insertItems] at h
    obtain ⟨h1, h2⟩ := Prod.mk.injEq .. ▸ h
    cases h1
    cases h2
    exact ⟨rfl, rfl, [], by simp, by simp, by simp⟩
  | cons r rs ih =>
    intro s acc out s2 h
    cases r with
    | bad => simp [insertItems, zodParse] at h
    | ok ins =>
      simp only [insertItems, zodParse, Store.createItem] at h
      obtain ⟨ht, hc, new, hout, hitems, hmem⟩ :=
        ih { s with txItems := s.txItems ++ [⟨s.itemCounter, txId, ins.amount, ins.taxRate,
          ins.taxAmount⟩], itemCounter := s.itemCounter + 1 }
          (acc ++ [⟨s.itemCounter, txId, ins.amount, ins.taxRate, ins.taxAmount⟩]) out s2 h
      refine ⟨ht, hc, ⟨s.itemCounter, txId, ins.amount, ins.taxRate, ins.taxAmount⟩ :: new,
        ?_, ?_, ?_⟩
      · rw [hout, List.append_assoc]
        rfl
      · rw [hitems, List.append_assoc]
        rfl
      · intro it hit
        rcases List.mem_cons.mp hit with h' | h'
        · rw [h']
        · exact hmem it h'

lemma insertItems_err (txId : Nat) :
    ∀ (rs : List (Raw InsertItem)) (s : Store) (acc : List StoredItem) (s2 : Store),
      insertItems txId s acc rs = (none, s2) →
      s2.transactions = s.transactions ∧ s2.txCounter = s.txCounter := by
  intro rs
  induction rs with
  | nil =>
    intro s acc s2 h
    simp [insertItems] at h
  | cons r rs ih =>
    intro s acc s2 h
    cases r with
    | bad =>
      simp only [insertItems, zodParse] at h
      obtain ⟨-, h2⟩ := Prod.mk.injEq .. ▸ h
      cases h2
      exact ⟨rfl, rfl⟩
    | ok ins =>
      simp only [insertItems, zodParse, Store.createItem] at h
      exact ih { s with txItems := s.txItems ++ [⟨s.itemCounter, txId, ins.amount,
        ins.taxRate, ins.taxAmount⟩], itemCounter := s.itemCounter + 1 } _ s2 h

lemma find?_id_eq_none (l : List Transaction) (id : Nat)
    (h : ∀ u ∈ l, u.id ≠ id) : l.find? (fun t => t.id == id) = none := by
  rw [List.find?_eq_none]
  intro u hu
  simp [h u hu]

lemma getTransaction_append_last (l : List Transaction) (tx : Transaction)
    (h : ∀ u ∈ l, u.id ≠ tx.id) :
    (l ++ [tx]).find? (fun t => t.id == tx.id) = some tx := by
  induction l with
  | nil =>
    rw [List.nil_append]
    exact List.find?_cons_of_pos _ (by simp)
  | cons u l ih =>
    have hu : ¬ ((fun t : Transaction => t.id == tx.id) u = true) := by
      simp [h u (List.mem_cons_self u l)]
    rw [List.cons_append,
      @List.find?_cons_of_neg Transaction (fun t => t.id == tx.id) u (l ++ [tx]) hu]
    exact ih (fun v hv => h v (List.mem_cons_of_mem u hv))

lemma getTransaction_update_last (l : List Transaction) (tx t2 : Transaction)
    (h : ∀ u ∈ l, u.id ≠ tx.id) (hid : t2.id = tx.id) :
    ((l ++ [tx]).map (fun x => if x.id == tx.id then t2 else x)).find?
      (fun t => t.id == tx.id) = some t2 := by
  induction l with
  | nil =>
    rw [List.nil_append, List.map_cons, List.map_nil, if_pos (by simp)]
    exact List.find?_cons_of_pos _ (by simp [hid])
  | cons u l ih =>
    have hu : ¬ ((u.id == tx.id) = true) := by
      simp [h u (List.mem_cons_self u l)]
    rw [List.cons_append, List.map_cons, if_neg hu,
      @List.find?_cons_of_neg Transaction (fun t => t.id == tx.id) u
        ((l ++ [tx]).map (fun x => if x.id == tx.id then t2 else x)) hu]
    exact ih (fun v hv => h v (List.mem_cons_of_mem u hv))

lemma itemsByTx_append (old new : List StoredItem) (txId : Nat)
    (hold : ∀ it ∈ old, it.transactionId ≠ txId)
    (hnew : ∀ it ∈ new, it.transactionId = txId) :
    (old ++ new).filter (fun it => it.transactionId == txId) = new := by
  rw [List.filter_append]
  have h1 : old.filter (fun it => it.transactionId == txId) = [] := by
    rw [List.filter_eq_nil_iff]
    intro it hit
    simp [hold it hit]
  have h2 : new.filter (fun it => it.transactionId == txId) = new := by
    rw [List.filter_eq_self]
    intro it hit
    simp [hnew it hit]
  rw [h1, h2, List.nil_append]

/-- Header as persisted by storage.createTransaction for an incoming
payload: the next counter value becomes the id. -/
def mkHeader (s : Store) (ins : InsertTx) : Transaction :=
  ⟨s.txCounter, ins.userId, ins.transactionType, ins.status, ins.amount,
    ins.balanceDue, ins.dueDate⟩

lemma createCtrl_eq (s : Store) (ins : InsertTx) (rawItems : List (Raw InsertItem)) :
    createTransactionCtrl s (some (.ok ins, rawItems)) =
      (match insertItems s.txCounter
          ({ s with transactions := s.transactions ++ [mkHeader s ins], txCounter := s.txCounter + 1 }) [] rawItems with
        | (none, s2) => (.badRequest "Failed to create transaction", s2)
        | (some items, s2) =>
          match s2.updateTx s.txCounter ⟨some (some (calculateTotals items).grandTotal),
              some (some (calculateTotals items).grandTotal)⟩ with
          | .error _ => (.badRequest "Failed to create transaction", s2)
          | .ok q => (.created ⟨mkHeader s ins, items, calculateTotals items⟩, q.2)) := rfl

lemma wf_ids (s : Store) (hwf : s.wf = true) :
    (∀ u ∈ s.transactions, u.id ≠ s.txCounter) ∧
    (∀ it ∈ s.txItems, it.transactionId ≠ s.txCounter) := by
  rw [Store.wf, Bool.and_eq_true, List.all_eq_true, List.all_eq_true] at hwf
  constructor
  · intro u hu
    have := hwf.1 u hu
    simp only [decide_eq_true_eq] at this
    omega
  · intro it hit
    have := hwf.2 it hit
    simp only [decide_eq_true_eq] at this
    omega

lemma createCtrl_success_spec (s : Store) (ins : InsertTx)
    (rawItems : List (Raw InsertItem)) (b : CreatedBody)
    (hwf : s.wf = true)
    (hres : (createTransactionCtrl s (some (.ok ins, rawItems))).1 = .created b) :
    b.headerEcho = mkHeader s ins ∧
    b.totals = calculateTotals b.items ∧
    ((createTransactionCtrl s (some (.ok ins, rawItems))).2).itemsByTx b.headerEcho.id
      = b.items ∧
    ((createTransactionCtrl s (some (.ok ins, rawItems))).2).getTransaction b.headerEcho.id
      = some (applyUpdate (mkHeader s ins)
          ⟨some (some b.totals.grandTotal), some (some b.totals.grandTotal)⟩) := by
  rw [createCtrl_eq] at hres ⊢
  rcases hE : insertItems s.txCounter
      ({ s with transactions := s.transactions ++ [mkHeader s ins], txCounter := s.txCounter + 1 }) [] rawItems with ⟨o, s2⟩
  rw [hE] at hres
  rcases o with _ | out
  · simp at hres
  obtain ⟨ht2, hc2, new, hout, hitems, hmem⟩ :=
    insertItems_ok s.txCounter rawItems _ [] out s2 hE
  have hpre : ∀ u ∈ s.transactions, u.id ≠ (mkHeader s ins).id :=
    fun u hu => (wf_ids s hwf).1 u hu
  have hfind : s2.getTransaction s.txCounter = some (mkHeader s ins) := by
    rw [Store.getTransaction, ht2]
    exact getTransaction_append_last s.transactions (mkHeader s ins) hpre
  simp only [Store.updateTx, hfind] at hres ⊢
  injection hres with hb
  subst hb
  have hnew2 : out = new := by rw [hout]; rfl
  have hitems2 : List.filter (fun it => it.transactionId == s.txCounter) s2.txItems
      = out := by
    rw [hitems, hnew2]
    exact itemsByTx_append s.txItems new s.txCounter (wf_ids s hwf).2 hmem
  have h1 : (List.map (fun x => if x.id == s.txCounter then applyUpdate (mkHeader s ins)
        ⟨some (some (calculateTotals out).grandTotal),
          some (some (calculateTotals out).grandTotal)⟩ else x)
        s2.transactions).find? (fun t => t.id == s.txCounter)
      = some (applyUpdate (mkHeader s ins)
          ⟨some (some (calculateTotals out).grandTotal),
            some (some (calculateTotals out).grandTotal)⟩) := by
    rw [ht2]
    exact getTransaction_update_last s.transactions (mkHeader s ins) _ hpre rfl
  exact ⟨rfl, rfl, hitems2, h1⟩

/-- C1: whenever transaction creation succeeds with a 201 response, the
header stored by the lifecycle controller ends up with
amount = grandTotal and balanceDue = grandTotal, where grandTotal is the
total the service computes from the line items persisted for that
transaction — regardless of the amount and balanceDue the caller
supplied. -/
theorem createTransaction_finalizes (s : Store)
    (body : Option (Raw InsertTx × List (Raw InsertItem))) (b : CreatedBody)
    (hwf : s.wf = true)
    (hres : (createTransactionCtrl s body).1 = .created b) :
    ∃ t, ((createTransactionCtrl s body).2).getTransaction b.headerEcho.id = some t ∧
      t.amount = some (calculateTotals
        (((createTransactionCtrl s body).2).itemsByTx b.headerEcho.id)).grandTotal ∧
      t.balanceDue = some (calculateTotals
        (((createTransactionCtrl s body).2).itemsByTx b.headerEcho.id)).grandTotal := by
  rcases body with _ | ⟨rawTx, rawItems⟩
  · simp [createTransactionCtrl] at hres
  rcases rawTx with ins | _
  · obtain ⟨hhdr, htot, hitems, hget⟩ := createCtrl_success_spec s ins rawItems b hwf hres
    refine ⟨applyUpdate (mkHeader s ins)
      ⟨some (some b.totals.grandTotal), some (some b.totals.grandTotal)⟩, hget, ?_, ?_⟩
    · rw [hitems, ← htot]
      rfl
    · rw [hitems, ← htot]
      rfl
  · simp [createTransactionCtrl, zodParse] at hres

/-- Fresh store with both id counters at 1, the MemStorage initial state
before any record is written. -/
def emptyStore : Store := ⟨[], [], 1, 1⟩

/-- Sample request header whose caller-supplied amount 999 and balanceDue 0
disagree with the totals of its line items. -/
def insSample : InsertTx := ⟨1, "sales_invoice", "pending", some 999, some 0, none⟩

/-- Sample line item: amount 45000 at rate 5 with tax 2250. -/
def itemSample : InsertItem := ⟨some 45000, some 5, some 2250⟩

/-- Response body produced for insSample with the single itemSample. -/
def createdSample : CreatedBody :=
  ⟨⟨1, 1, "sales_invoice", "pending", some 999, some 0, none⟩,
   [⟨1, 1, some 45000, some 5, some 2250⟩], ⟨45000, 2250, 47250⟩⟩

/-- C1 witness: creating insSample with one line item stores the header
with amount and balanceDue both equal to the computed grand total. -/
theorem createTransaction_finalizes_witness :
    ∃ t, ((createTransactionCtrl emptyStore
        (some (.ok insSample, [.ok itemSample]))).2).getTransaction
        createdSample.headerEcho.id = some t ∧
      t.amount = some (calculateTotals (((createTransactionCtrl emptyStore
        (some (.ok insSample, [.ok itemSample]))).2).itemsByTx
        createdSample.headerEcho.id)).grandTotal ∧
      t.balanceDue = some (calculateTotals (((createTransactionCtrl emptyStore
        (some (.ok insSample, [.ok itemSample]))).2).itemsByTx
        createdSample.headerEcho.id)).grandTotal :=
  createTransaction_finalizes emptyStore (some (.ok insSample, [.ok itemSample]))
    createdSample (by decide)
    (by norm_num [createTransactionCtrl, zodParse, Store.createTx, insertItems,
      Store.createItem, calculateTotals, Store.updateTx, Store.getTransaction,
      applyUpdate, emptyStore, insSample, itemSample, createdSample])

/-- C10: the 201 body spreads the header as first persisted, before the
finalization patch: its amount and balanceDue are the caller-supplied
values, the stored header carries the computed grand total in both fields,
so whenever the supplied value differs from the grand total the response
and the store disagree; the computed totals ride along in the totals
field. -/
theorem createTransaction_response_prepatch (s : Store) (ins : InsertTx)
    (rawItems : List (Raw InsertItem)) (b : CreatedBody)
    (hwf : s.wf = true)
    (hres : (createTransactionCtrl s (some (.ok ins, rawItems))).1 = .created b) :
    b.headerEcho.amount = ins.amount ∧ b.headerEcho.balanceDue = ins.balanceDue ∧
    b.totals = calculateTotals b.items ∧
    ∃ t, ((createTransactionCtrl s (some (.ok ins, rawItems))).2).getTransaction
        b.headerEcho.id = some t ∧
      t.amount = some b.totals.grandTotal ∧
      t.balanceDue = some b.totals.grandTotal ∧
      (ins.amount ≠ some b.totals.grandTotal → b.headerEcho.amount ≠ t.amount) ∧
      (ins.balanceDue ≠ some b.totals.grandTotal →
        b.headerEcho.balanceDue ≠ t.balanceDue) := by
  obtain ⟨hhdr, htot, hitems, hget⟩ := createCtrl_success_spec s ins rawItems b hwf hres
  refine ⟨by rw [hhdr]; rfl, by rw [hhdr]; rfl, htot,
    applyUpdate (mkHeader s ins)
      ⟨some (some b.totals.grandTotal), some (some b.totals.grandTotal)⟩,
    hget, rfl, rfl, ?_, ?_⟩
  · intro hne
    rw [hhdr]
    exact hne
  · intro hne
    rw [hhdr]
    exact hne

/-- C10 witness: with supplied amount 999 against grand total 47250, the
201 body echoes 999 while the store holds 47250, so the two differ. -/
theorem createTransaction_response_prepatch_witness :
    createdSample.headerEcho.amount = insSample.amount ∧
    createdSample.headerEcho.balanceDue = insSample.balanceDue ∧
    createdSample.totals = calculateTotals createdSample.items ∧
    ∃ t, ((createTransactionCtrl emptyStore
        (some (.ok insSample, [.ok itemSample]))).2).getTransaction
        createdSample.headerEcho.id = some t ∧
      t.amount = some createdSample.totals.grandTotal ∧
      t.balanceDue = some createdSample.totals.grandTotal ∧
      (insSample.amount ≠ some createdSample.totals.grandTotal →
        createdSample.headerEcho.amount ≠ t.amount) ∧
      (insSample.balanceDue ≠ some createdSample.totals.grandTotal →
        createdSample.headerEcho.balanceDue ≠ t.balanceDue) :=
  createTransaction_response_prepatch emptyStore insSample [.ok itemSample]
    createdSample (by decide)
    (by norm_num [createTransactionCtrl, zodParse, Store.createTx, insertItems,
      Store.createItem, calculateTotals, Store.updateTx, Store.getTransaction,
      applyUpdate, emptyStore, insSample, itemSample, createdSample])

/-- C4 counterexample: a valid header with one schema-invalid line item is
rejected with status 400, yet the transaction header has already been
persisted — the claim that nothing is persisted on line-item validation
failure is false. -/
theorem createTransaction_partial_write_counterexample :
    (createTransactionCtrl emptyStore (some (.ok insSample, [.bad]))).1.statusCode = 400 ∧
    (createTransactionCtrl emptyStore (some (.ok insSample, [.bad]))).2.transactions
      = [mkHeader emptyStore insSample] ∧
    (createTransactionCtrl emptyStore (some (.ok insSample, [.bad]))).2.transactions
      ≠ [] := by
  refine ⟨rfl, rfl, ?_⟩
  rw [show (createTransactionCtrl emptyStore (some (.ok insSample, [.bad]))).2.transactions
      = [mkHeader emptyStore insSample] from rfl]
  exact List.cons_ne_nil _ _

/-- C4 amended: a missing body or a header failing validation is rejected
with 400 and nothing is persisted; but when the header is valid and a line
item fails validation, the 400 rejection leaves the already-persisted
header (and any items written before the failure) in the store. -/
theorem createTransaction_validation_amended :
    (∀ (s : Store) (rawItems : List (Raw InsertItem)),
      createTransactionCtrl s (some (.bad, rawItems))
        = (.badRequest "Failed to create transaction", s)) ∧
    (∀ s : Store, createTransactionCtrl s none
        = (.badRequest "Transaction and items are required", s)) ∧
    (∀ (s : Store) (ins : InsertTx) (rawItems : List (Raw InsertItem)),
      s.wf = true →
      (createTransactionCtrl s (some (.ok ins, rawItems))).1.statusCode = 400 →
      ((createTransactionCtrl s (some (.ok ins, rawItems))).2).transactions
        = s.transactions ++ [mkHeader s ins]) := by
  refine ⟨fun s rawItems => rfl, fun s => rfl, ?_⟩
  intro s ins rawItems hwf h400
  rw [createCtrl_eq] at h400 ⊢
  rcases hE : insertItems s.txCounter
      ({ s with transactions := s.transactions ++ [mkHeader s ins], txCounter := s.txCounter + 1 }) [] rawItems with ⟨o, s2⟩
  rw [hE] at h400
  rcases o with _ | out
  · have h := (insertItems_err s.txCounter rawItems _ [] s2 hE).1
    show s2.transactions = s.transactions ++ [mkHeader s ins]
    rw [h]
  · obtain ⟨ht2, hc2, new, hout, hitems, hmem⟩ :=
      insertItems_ok s.txCounter rawItems _ [] out s2 hE
    have hpre : ∀ u ∈ s.transactions, u.id ≠ (mkHeader s ins).id :=
      fun u hu => (wf_ids s hwf).1 u hu
    have hfind : s2.getTransaction s.txCounter = some (mkHeader s ins) := by
      rw [Store.getTransaction, ht2]
      exact getTransaction_append_last s.transactions (mkHeader s ins) hpre
    simp only [Store.updateTx, hfind] at h400
    simp [CreateResult.statusCode] at h400

/-- C4 witness: the amended statement applied to a fresh store, a valid
header and a single invalid item — the rejected request leaves exactly the
new header persisted. -/
theorem createTransaction_validation_amended_witness :
    (createTransactionCtrl emptyStore (some (.ok insSample, [.bad]))).2.transactions
      = emptyStore.transactions ++ [mkHeader emptyStore insSample] :=
  createTransaction_validation_amended.2.2 emptyStore insSample [.bad] (by decide) rfl

/-- The empty partial update. -/
def updSample : TxUpdate := ⟨none, none⟩

/-- C8 counterexample: updating an id absent from the store answers with
status 400 (the catch-all of the controller), not 404 — the claim that a
missing id surfaces as a 404 response is false. -/
theorem updateTransaction_missing_counterexample :
    emptyStore.getTransaction 99 = none ∧
    (updateTransactionCtrl emptyStore 99 (.ok updSample)).1.statusCode = 400 ∧
    (updateTransactionCtrl emptyStore 99 (.ok updSample)).1.statusCode ≠ 404 := by
  refine ⟨rfl, rfl, ?_⟩
  rw [show (updateTransactionCtrl emptyStore 99 (.ok updSample)).1.statusCode = 400
    from rfl]
  omega

/-- C8 amended: for an id absent from the store, the storage layer fails
with its not-found error, and the HTTP layer surfaces this as a 400
response with the store unchanged — never as a 404, whose branch is
unreachable because the storage throws instead of returning undefined. -/
theorem updateTransaction_missing_id (s : Store) (id : Nat) (u : TxUpdate)
    (habs : s.getTransaction id = none) :
    s.updateTx id u = .error (.notFound id) ∧
    updateTransactionCtrl s id (.ok u)
      = (.badRequest "Failed to update transaction", s) := by
  have h1 : s.updateTx id u = .error (.notFound id) := by
    rw [Store.updateTx, habs]
  refine ⟨h1, ?_⟩
  simp only [updateTransactionCtrl, zodParse, h1]

/-- C8 witness: the amended statement applied to the empty store and id
99. -/
theorem updateTransaction_missing_id_witness :
    emptyStore.updateTx 99 updSample = .error (.notFound 99) ∧
    updateTransactionCtrl emptyStore 99 (.ok updSample)
      = (.badRequest "Failed to update transaction", emptyStore) :=
  updateTransaction_missing_id emptyStore 99 updSample rfl

end Acct
